import Mathlib

/-!
Verification of the TechLeadAgent repository (src/core/agent.py and
src/core/config.py): a shallow embedding of the persona formatter, the
agent configuration, the startup credential check and the two-prompt
driver loop, followed by theorems settling the specification claims.
-/

/-- Session state: a string-to-string key-value bag, embedded as an
association list (first binding wins, mirroring a dictionary lookup). -/
def StateMap : Type := List (String × String)

/-- Lookup of a key in the session state, mirroring dictionary access. -/
def stateGet (st : StateMap) (k : String) : Option String :=
  (List.find? (fun kv => kv.1 == k) st).map (fun kv => kv.2)

/-- Embeds the Python idiom state.get(key, default): the stored value when
the key is present, the default otherwise. -/
def stateGetD (st : StateMap) (k d : String) : String :=
  (stateGet st k).getD d

/-- The instruction text built by the f-string at src/core/agent.py lines
28-34, as a function of the two extracted values. -/
def personaText (use_role current_topic : String) : String :=
  "You are a strict Senior Tech Lead. " ++
  "You are currently mentoring a user with the rank of \x27" ++ use_role ++ "\x27. " ++
  "The current discussion topic is locked to: \x27" ++ current_topic ++ "\x27. " ++
  "If the user asks about anything else, politely refuse and steer back to " ++
    current_topic ++ ". " ++
  "Keep answers concise and technical."

/-- Embeds dynamic_persona_provider (src/core/agent.py lines 15-34): reads
the two state keys with their defaults and formats the instruction. -/
def dynamic_persona_provider (state : StateMap) : String :=
  let use_role := stateGetD state "user:role" "Intern"
  let current_topic := stateGetD state "current_topic" "General Chat"
  personaText use_role current_topic

/-- Embeds MODEL_NAME from src/core/config.py line 11. -/
def MODEL_NAME : String := "gemini-2.5-flash"

/-- Python truthiness of an optional string: None and the empty string are
falsy, every other string is truthy. -/
def optStrFalsy : Option String → Bool
  | none => true
  | some s => s == ""

/-- Embeds the startup credential check of src/core/config.py lines 7-9:
reads GOOGLE_API_KEY from the environment (os.getenv returns the value or
None) and raises ValueError when it is falsy (absent or empty). -/
def loadConfig (env : String → Option String) : Except String String :=
  let googleApiKey := env "GOOGLE_API_KEY"
  if optStrFalsy googleApiKey then
    Except.error "GOOGLE_API_KEY is missing in .env"
  else
    Except.ok (googleApiKey.getD "")

/-- Substring containment, stated on the underlying character lists. -/
def containsSubstr (s sub : String) : Prop :=
  ∃ pre post : List Char, s.data = pre ++ sub.data ++ post

/-- C2: for every state missing "user:role" the provider falls back to the
default role "Intern", and for every state missing "current_topic" it falls
back to the default topic "General Chat"; being a total function it returns
normally in all such cases. -/
theorem c2_defaults (st : StateMap) :
    (stateGet st "user:role" = none →
      dynamic_persona_provider st =
        personaText "Intern" (stateGetD st "current_topic" "General Chat")) ∧
    (stateGet st "current_topic" = none →
      dynamic_persona_provider st =
        personaText (stateGetD st "user:role" "Intern") "General Chat") := by
  constructor <;> intro h <;> simp [dynamic_persona_provider, stateGetD, h]

/-- Witness for C2: on the empty state both keys are missing and the
provider returns the instruction built from both defaults. -/
theorem c2_defaults_witness :
    dynamic_persona_provider [] = personaText "Intern" "General Chat" ∧
    dynamic_persona_provider [] = personaText "Intern" "General Chat" := by
  exact ⟨(c2_defaults []).1 rfl, by
    have h := (c2_defaults []).2 rfl
    simpa [stateGetD, stateGet] using h⟩

/-- C3: whenever both keys are present, the returned instruction contains
both stored values verbatim as substrings. -/
theorem c3_verbatim (st : StateMap) (r t : String)
    (hr : stateGet st "user:role" = some r)
    (ht : stateGet st "current_topic" = some t) :
    containsSubstr (dynamic_persona_provider st) r ∧
    containsSubstr (dynamic_persona_provider st) t := by
  constructor
  · refine ⟨(String.data ("You are a strict Senior Tech Lead. " ++
      "You are currently mentoring a user with the rank of \x27")), ?_, ?_⟩
    · exact String.data ("\x27. " ++
        "The current discussion topic is locked to: \x27" ++ t ++ "\x27. " ++
        "If the user asks about anything else, politely refuse and steer back to " ++
        t ++ ". " ++ "Keep answers concise and technical.")
    · simp only [dynamic_persona_provider, personaText, stateGetD, hr, ht,
        Option.getD_some, String.data_append, List.append_assoc]
  · refine ⟨(String.data ("You are a strict Senior Tech Lead. " ++
      "You are currently mentoring a user with the rank of \x27" ++ r ++ "\x27. " ++
      "The current discussion topic is locked to: \x27")), ?_, ?_⟩
    · exact String.data ("\x27. " ++
        "If the user asks about anything else, politely refuse and steer back to " ++
        t ++ ". " ++ "Keep answers concise and technical.")
    · simp only [dynamic_persona_provider, personaText, stateGetD, hr, ht,
        Option.getD_some, String.data_append, List.append_assoc]

/-- Witness for C3: on the initial state of main, the instruction contains
both "Junior Developer" and "Memory Management" verbatim. -/
theorem c3_verbatim_witness :
    containsSubstr
      (dynamic_persona_provider
        [("user:role", "Junior Developer"), ("current_topic", "Memory Management")])
      "Junior Developer" ∧
    containsSubstr
      (dynamic_persona_provider
        [("user:role", "Junior Developer"), ("current_topic", "Memory Management")])
      "Memory Management" :=
  c3_verbatim
    [("user:role", "Junior Developer"), ("current_topic", "Memory Management")]
    "Junior Developer" "Memory Management" (by decide) (by decide)

/-- C4: dynamic_persona_provider is deterministic and, being embedded as a
pure total function of the state snapshot, has no side effects: equal
snapshots yield character-for-character identical strings. -/
theorem c4_deterministic (s₁ s₂ : StateMap) (h : s₁ = s₂) :
    dynamic_persona_provider s₁ = dynamic_persona_provider s₂ := by
  rw [h]

/-- Witness for C4: two invocations on the same concrete snapshot agree. -/
theorem c4_deterministic_witness :
    dynamic_persona_provider [("user:role", "Junior Developer")] =
      dynamic_persona_provider [("user:role", "Junior Developer")] :=
  c4_deterministic [("user:role", "Junior Developer")]
    [("user:role", "Junior Developer")] rfl

/-- C10: the provider output depends on no key other than "user:role" and
"current_topic": any two states agreeing on those two lookups (present with
equal values, or both absent) produce identical instructions. -/
theorem c10_noninterference (s₁ s₂ : StateMap)
    (hrole : stateGet s₁ "user:role" = stateGet s₂ "user:role")
    (htopic : stateGet s₁ "current_topic" = stateGet s₂ "current_topic") :
    dynamic_persona_provider s₁ = dynamic_persona_provider s₂ := by
  simp [dynamic_persona_provider, stateGetD, hrole, htopic]

/-- Witness for C10: a state with an extra unrelated key produces the same
instruction as one without it. -/
theorem c10_noninterference_witness :
    dynamic_persona_provider
        [("user:role", "Junior Developer"), ("extra", "x")] =
      dynamic_persona_provider [("user:role", "Junior Developer")] :=
  c10_noninterference
    [("user:role", "Junior Developer"), ("extra", "x")]
    [("user:role", "Junior Developer")] (by decide) (by decide)

/-- Instruction source of an agent configuration: either a static string
or a function of the current session state (the capability used at
src/core/agent.py line 39, where a function is passed). -/
inductive Instruction where
  | static (s : String)
  | dynamic (f : StateMap → String)

/-- Embeds the LlmAgent configuration record: name, model identifier,
instruction source and output key. -/
structure AgentConfig where
  name : String
  model : String
  instruction : Instruction
  output_key : String

/-- Embeds root_agent (src/core/agent.py lines 36-41): the configuration
stores the function dynamic_persona_provider itself, not a string. -/
def root_agent : AgentConfig :=
  { name := "TechLeadAgent"
    model := MODEL_NAME
    instruction := Instruction.dynamic dynamic_persona_provider
    output_key := "last_mentor_advice" }

namespace Genai

/-- Embeds google.genai.types.Part: a content fragment that may carry
text. -/
structure Part where
  text : Option String

/-- Embeds google.genai.types.Content: an optional list of parts. -/
structure Content where
  parts : Option (List Part)

/-- Embeds an ADK event: it may carry content. -/
structure Event where
  content : Option Content

end Genai

/-- Modelled from the spec: the Conversation Runner collaborator
(google.adk, external to this repository) maps a resolved instruction, a
user message and the session state to a finite event sequence and an
updated state, per the contract runTurn(agentConfig, sessionHandle,
userMessage) -> lazy sequence of Event with a state write-back. -/
def Collaborator : Type :=
  String → String → StateMap → (List Genai.Event × StateMap)

/-- Modelled from the spec: the instruction source is resolved fresh at
each turn — a static string is used as is, a function is applied to the
session state as it exists at that turn. -/
def resolveInstruction : Instruction → StateMap → String
  | Instruction.static s, _ => s
  | Instruction.dynamic f, st => f st

/-- Everything one turn produces: the submitted prompt, the instruction
that governed it, the events streamed back, and the state afterwards. -/
structure TurnResult where
  prompt : String
  instructionUsed : String
  events : List Genai.Event
  stateAfter : StateMap

/-- One turn of the driver loop (src/core/agent.py lines 76-88): resolve
the instruction from the current state, submit the prompt, collect the
streamed events and the updated session state. -/
def runTurn (collab : Collaborator) (agent : AgentConfig) (st : StateMap)
    (prompt : String) : TurnResult :=
  let instr := resolveInstruction agent.instruction st
  let out := collab instr prompt st
  { prompt := prompt, instructionUsed := instr, events := out.1,
    stateAfter := out.2 }

/-- The driver loop over the prompt list, strictly in order: each turn
starts from the state left by the previous one. -/
def runPrompts (collab : Collaborator) (agent : AgentConfig) :
    StateMap → List String → List TurnResult
  | _, [] => []
  | st, p :: ps =>
    let r := runTurn collab agent st p
    r :: runPrompts collab agent r.stateAfter ps

/-- Embeds the prompts list of main (src/core/agent.py lines 71-74). -/
def prompts : List String :=
  ["Hi, can you help me with Python?",
   "Okay, tell me about Stack and Heap."]

/-- Embeds initial_state of main (src/core/agent.py lines 56-59). -/
def initial_state : StateMap :=
  [("user:role", "Junior Developer"),
   ("current_topic", "Memory Management")]

/-- What the inner loop prints for one part (src/core/agent.py lines
86-87): the MENTOR line when part.text is truthy, nothing otherwise. -/
def printedForPart (p : Genai.Part) : List String :=
  if optStrFalsy p.text then [] else ["MENTOR: " ++ p.text.getD ""]

/-- What the loop prints for one event (src/core/agent.py lines 84-87):
nothing when the event has no content or the content has no parts,
otherwise the lines for each part in order. -/
def printedForEvent (e : Genai.Event) : List String :=
  match e.content with
  | none => []
  | some c =>
    match c.parts with
    | none => []
    | some ps => (ps.map printedForPart).flatten

/-- Spec-side description of the text an event carries: the non-empty
text fragments of its parts, in order (empty when the event has no
content or no parts). Stated from the words of the claim for comparison
with printedForEvent, which is taken from the source. -/
def specEventTexts (e : Genai.Event) : List String :=
  match e.content with
  | none => []
  | some c =>
    match c.parts with
    | none => []
    | some ps => ps.filterMap (fun part =>
        match part.text with
        | some t => if t = "" then none else some t
        | none => none)

/-- Observable actions of the driver, in program order: submitting a
prompt, consuming one streamed event, printing one line. -/
inductive DriverAction where
  | submit (prompt : String)
  | consume (e : Genai.Event)
  | print (line : String)

/-- Consuming one event immediately prints its lines, per fragment. -/
def eventActions (e : Genai.Event) : List DriverAction :=
  DriverAction.consume e :: (printedForEvent e).map DriverAction.print

/-- The actions of one turn: submit the prompt, then consume the event
stream to exhaustion, printing as it goes. -/
def turnActions (r : TurnResult) : List DriverAction :=
  DriverAction.submit r.prompt :: (r.events.map eventActions).flatten

/-- The full action trace of the driver loop. -/
def driverTrace (rs : List TurnResult) : List DriverAction :=
  (rs.map turnActions).flatten

/-- The prompts submitted along a trace, in order. -/
def submitsOf (t : List DriverAction) : List String :=
  t.filterMap (fun a => match a with
    | DriverAction.submit p => some p
    | _ => none)

/-- The events consumed along a trace, in order. -/
def consumesOf (t : List DriverAction) : List Genai.Event :=
  t.filterMap (fun a => match a with
    | DriverAction.consume e => some e
    | _ => none)

/-- The lines printed along a trace, in order. -/
def printsOf (t : List DriverAction) : List String :=
  t.filterMap (fun a => match a with
    | DriverAction.print s => some s
    | _ => none)

/-- Log messages emitted by the verification step. -/
inductive LogMsg where
  | info (s : String)
  | warning (s : String)

/-- Embeds the verification step (src/core/agent.py lines 94-99): when a
session was fetched, read "last_mentor_advice"; log a warning when it is
falsy (absent or empty), an info line with a 50-character preview
otherwise; when no session was fetched, do nothing. -/
def verifyOutput (session : Option StateMap) : List LogMsg :=
  match session with
  | none => []
  | some st =>
    let saved_advice := stateGet st "last_mentor_advice"
    if optStrFalsy saved_advice then
      [LogMsg.warning "State \x27last_mentor_advice\x27 is empty!"]
    else
      [LogMsg.info ("State \x27last_mentor_advice\x27: " ++
        (saved_advice.getD "").take 50 ++ "...")]

/-- The outcome of one run of main: the turn results and the verification
log. -/
structure MainOutcome where
  turns : List TurnResult
  logs : List LogMsg

/-- Embeds main (src/core/agent.py lines 43-99): run the two prompts in
order from the initial state, then verify the output key on whatever the
session service returns for the final get_session call (the fetched
parameter; the service is an external collaborator). -/
def mainRun (collab : Collaborator) (fetched : Option StateMap) :
    MainOutcome :=
  { turns := runPrompts collab root_agent initial_state prompts
    logs := verifyOutput fetched }

/-- The whole program: module import runs the credential check of
src/core/config.py before any session activity; only on success does main
run. -/
def program (env : String → Option String) (collab : Collaborator)
    (fetched : Option StateMap) : Except String MainOutcome :=
  match loadConfig env with
  | Except.error e => Except.error e
  | Except.ok _ => Except.ok (mainRun collab fetched)

/-- A collaborator that streams no events and leaves the state unchanged,
used to instantiate universally quantified statements. -/
def nullCollaborator : Collaborator := fun _ _ st => ([], st)

theorem submitsOf_append (t₁ t₂ : List DriverAction) :
    submitsOf (t₁ ++ t₂) = submitsOf t₁ ++ submitsOf t₂ := by
  simp [submitsOf, List.filterMap_append]

theorem consumesOf_append (t₁ t₂ : List DriverAction) :
    consumesOf (t₁ ++ t₂) = consumesOf t₁ ++ consumesOf t₂ := by
  simp [consumesOf, List.filterMap_append]

theorem printsOf_append (t₁ t₂ : List DriverAction) :
    printsOf (t₁ ++ t₂) = printsOf t₁ ++ printsOf t₂ := by
  simp [printsOf, List.filterMap_append]

theorem submitsOf_printActions (lines : List String) :
    submitsOf (lines.map DriverAction.print) = [] := by
  induction lines with
  | nil => rfl
  | cons a l ih => simp [submitsOf, List.filterMap_cons, ih]

theorem consumesOf_printActions (lines : List String) :
    consumesOf (lines.map DriverAction.print) = [] := by
  induction lines with
  | nil => rfl
  | cons a l ih => simp [consumesOf, List.filterMap_cons, ih]

theorem printsOf_printActions (lines : List String) :
    printsOf (lines.map DriverAction.print) = lines := by
  induction lines with
  | nil => rfl
  | cons a l ih => simpa [printsOf, List.filterMap_cons] using ih

theorem submitsOf_eventActions (e : Genai.Event) :
    submitsOf (eventActions e) = [] := by
  simp [eventActions, submitsOf, List.filterMap_cons,
    submitsOf_printActions (printedForEvent e)]

theorem consumesOf_eventActions (e : Genai.Event) :
    consumesOf (eventActions e) = [e] := by
  simp [eventActions, consumesOf, List.filterMap_cons,
    consumesOf_printActions (printedForEvent e)]

theorem printsOf_eventActions (e : Genai.Event) :
    printsOf (eventActions e) = printedForEvent e := by
  have h := printsOf_printActions (printedForEvent e)
  simpa [eventActions, printsOf, List.filterMap_cons] using h

theorem submitsOf_turnEvents (events : List Genai.Event) :
    submitsOf ((events.map eventActions).flatten) = [] := by
  induction events with
  | nil => rfl
  | cons e es ih =>
    simp [submitsOf_append, submitsOf_eventActions, ih]

theorem consumesOf_turnEvents (events : List Genai.Event) :
    consumesOf ((events.map eventActions).flatten) = events := by
  induction events with
  | nil => rfl
  | cons e es ih =>
    simp [consumesOf_append, consumesOf_eventActions, ih]

theorem printsOf_turnEvents (events : List Genai.Event) :
    printsOf ((events.map eventActions).flatten) =
      (events.map printedForEvent).flatten := by
  induction events with
  | nil => rfl
  | cons e es ih =>
    simp [printsOf_append, printsOf_eventActions, ih]

theorem submitsOf_turnActions (r : TurnResult) :
    submitsOf (turnActions r) = [r.prompt] := by
  have h := submitsOf_turnEvents r.events
  simpa [turnActions, submitsOf, List.filterMap_cons] using h

theorem runPrompts_two (collab : Collaborator) (agent : AgentConfig)
    (st : StateMap) (p₁ p₂ : String) :
    runPrompts collab agent st [p₁, p₂] =
      [runTurn collab agent st p₁,
       runTurn collab agent (runTurn collab agent st p₁).stateAfter p₂] := rfl

/-- C1: on every turn of the loop the persona instruction is recomputed by
applying the stored function to the session state as it exists at that
turn: the first turn uses the initial state, the second uses the state
left by the first turn, because root_agent stores
dynamic_persona_provider itself rather than a pre-formatted string. -/
theorem c1_instruction_recomputed_per_turn (collab : Collaborator)
    (st₀ : StateMap) :
    ∃ r₁ r₂ : TurnResult,
      runPrompts collab root_agent st₀ prompts = [r₁, r₂] ∧
      r₁.instructionUsed = dynamic_persona_provider st₀ ∧
      r₂.instructionUsed = dynamic_persona_provider r₁.stateAfter :=
  ⟨runTurn collab root_agent st₀ "Hi, can you help me with Python?",
   runTurn collab root_agent
     (runTurn collab root_agent st₀ "Hi, can you help me with Python?").stateAfter
     "Okay, tell me about Stack and Heap.",
   rfl, rfl, rfl⟩

/-- C6: the driver submits exactly the two fixed prompts in list order,
and every event of the first turn is consumed (to exhaustion) before the
second prompt is submitted. -/
theorem c6_prompts_in_order (collab : Collaborator) :
    submitsOf (driverTrace (runPrompts collab root_agent initial_state prompts)) =
      ["Hi, can you help me with Python?",
       "Okay, tell me about Stack and Heap."] ∧
    ∃ t₁ t₂ : List DriverAction,
      driverTrace (runPrompts collab root_agent initial_state prompts) =
        DriverAction.submit "Hi, can you help me with Python?" ::
          (t₁ ++ DriverAction.submit "Okay, tell me about Stack and Heap." :: t₂) ∧
      submitsOf t₁ = [] ∧
      consumesOf t₁ =
        (collab (dynamic_persona_provider initial_state)
          "Hi, can you help me with Python?" initial_state).1 := by
  rw [show prompts =
    ["Hi, can you help me with Python?",
     "Okay, tell me about Stack and Heap."] from rfl, runPrompts_two]
  constructor
  · simp [driverTrace, submitsOf_append, submitsOf_turnActions, runTurn]
  · refine ⟨((runTurn collab root_agent initial_state
        "Hi, can you help me with Python?").events.map eventActions).flatten,
      ((runTurn collab root_agent
        (runTurn collab root_agent initial_state
          "Hi, can you help me with Python?").stateAfter
        "Okay, tell me about Stack and Heap.").events.map eventActions).flatten,
      ?_, ?_, ?_⟩
    · simp [driverTrace, turnActions]
      exact ⟨rfl, rfl⟩
    · exact submitsOf_turnEvents _
    · exact consumesOf_turnEvents _

/-- C9: when the post-loop get_session yields no session, the driver
skips the verification step entirely: no warning and no info line are
logged, and the run still completes (mainRun is total and its log list is
empty). -/
theorem c9_no_session_skips_verification (collab : Collaborator) :
    (mainRun collab none).logs = [] ∧ verifyOutput none = [] :=
  ⟨rfl, rfl⟩

theorem printedParts_eq (ps : List Genai.Part) :
    (ps.map printedForPart).flatten =
      (ps.filterMap (fun part =>
        match part.text with
        | some t => if t = "" then none else some t
        | none => none)).map (fun t => "MENTOR: " ++ t) := by
  induction ps with
  | nil => rfl
  | cons part rest ih =>
    cases part 
    case mk txt =>
      cases txt with
      | none =>
        simp [printedForPart, optStrFalsy, List.filterMap_cons, ih]
      | some t =>
        by_cases ht : t = ""
        · subst ht
          simp [printedForPart, optStrFalsy, List.filterMap_cons, ih]
        · simp [printedForPart, optStrFalsy, List.filterMap_cons, ih, ht]

/-- C8: within a turn the driver consumes the event stream to exhaustion,
and the lines printed along the turn trace are exactly, in event order and
per fragment, a MENTOR line for each non-empty text fragment an event
carries — events without content or without text parts contribute
nothing. -/
theorem c8_prints_text_fragments (collab : Collaborator) (st : StateMap)
    (p : String) :
    printsOf (turnActions (runTurn collab root_agent st p)) =
      ((runTurn collab root_agent st p).events.map printedForEvent).flatten ∧
    ∀ e : Genai.Event,
      printedForEvent e = (specEventTexts e).map (fun t => "MENTOR: " ++ t) := by
  constructor
  · have h := printsOf_turnEvents (runTurn collab root_agent st p).events
    simpa [turnActions, printsOf, List.filterMap_cons] using h
  · intro e
    cases e
    case mk content =>
      cases content with
      | none => rfl
      | some c =>
        cases c
        case mk parts =>
          cases parts with
          | none => rfl
          | some ps =>
            simpa [printedForEvent, specEventTexts] using printedParts_eq ps

/-- C7: after the prompt loop, when a session is fetched the driver reads
"last_mentor_advice": when the value is absent or empty it logs exactly
the warning, when it is non-empty it logs exactly the info line with a
50-character preview; in every case the run completes with these logs and
no error. -/
theorem c7_verification_logging (collab : Collaborator) (st : StateMap) :
    (stateGet st "last_mentor_advice" = none →
      (mainRun collab (some st)).logs =
        [LogMsg.warning "State \x27last_mentor_advice\x27 is empty!"]) ∧
    (∀ a : String, stateGet st "last_mentor_advice" = some a → a = "" →
      (mainRun collab (some st)).logs =
        [LogMsg.warning "State \x27last_mentor_advice\x27 is empty!"]) ∧
    (∀ a : String, stateGet st "last_mentor_advice" = some a → a ≠ "" →
      (mainRun collab (some st)).logs =
        [LogMsg.info ("State \x27last_mentor_advice\x27: " ++
          a.take 50 ++ "...")]) := by
  refine ⟨?_, ?_, ?_⟩
  · intro h
    simp [mainRun, verifyOutput, h, optStrFalsy]
  · intro a h ha
    subst ha
    simp [mainRun, verifyOutput, h, optStrFalsy]
  · intro a h ha
    simp [mainRun, verifyOutput, h, optStrFalsy, ha]

/-- Witness for C7: the three cases at concrete fetched sessions — key
absent, key empty, key holding text. -/
theorem c7_verification_logging_witness :
    (mainRun nullCollaborator (some [("other", "y")])).logs =
      [LogMsg.warning "State \x27last_mentor_advice\x27 is empty!"] ∧
    (mainRun nullCollaborator (some [("last_mentor_advice", "")])).logs =
      [LogMsg.warning "State \x27last_mentor_advice\x27 is empty!"] ∧
    (mainRun nullCollaborator (some [("last_mentor_advice", "Use a stack.")])).logs =
      [LogMsg.info ("State \x27last_mentor_advice\x27: " ++
        "Use a stack.".take 50 ++ "...")] :=
  ⟨(c7_verification_logging nullCollaborator [("other", "y")]).1 (by decide),
   (c7_verification_logging nullCollaborator
      [("last_mentor_advice", "")]).2.1 "" (by decide) rfl,
   (c7_verification_logging nullCollaborator
      [("last_mentor_advice", "Use a stack.")]).2.2 "Use a stack."
      (by decide) (by decide)⟩

/-- An environment in which GOOGLE_API_KEY is present but empty. -/
def envEmptyKey : String → Option String := fun k =>
  if k = "GOOGLE_API_KEY" then some "" else none

/-- An environment with no variables set. -/
def envAbsent : String → Option String := fun _ => none

/-- An environment in which GOOGLE_API_KEY holds a non-empty value. -/
def envGood : String → Option String := fun k =>
  if k = "GOOGLE_API_KEY" then some "test-key" else none

/-- Counterexample to C5 as stated: GOOGLE_API_KEY may be present yet
empty, and then the check at src/core/config.py line 8 (if not
GOOGLE_API_KEY) still raises, so presence alone does not guarantee that
startup succeeds. -/
theorem c5_counterexample :
    (envEmptyKey "GOOGLE_API_KEY").isSome = true ∧
    loadConfig envEmptyKey =
      Except.error "GOOGLE_API_KEY is missing in .env" := by
  constructor
  · rfl
  · rfl

/-- C5 (amended): if GOOGLE_API_KEY is absent — or present but empty,
which the code treats the same way — the program fails at startup with
the descriptive error and never reaches main; if it is present and
non-empty, startup succeeds, no such error is raised, and main runs. -/
theorem c5_startup_check (env : String → Option String) :
    (env "GOOGLE_API_KEY" = none →
      ∀ (collab : Collaborator) (fetched : Option StateMap),
        program env collab fetched =
          Except.error "GOOGLE_API_KEY is missing in .env") ∧
    (env "GOOGLE_API_KEY" = some "" →
      ∀ (collab : Collaborator) (fetched : Option StateMap),
        program env collab fetched =
          Except.error "GOOGLE_API_KEY is missing in .env") ∧
    (∀ k : String, env "GOOGLE_API_KEY" = some k → k ≠ "" →
      ∀ (collab : Collaborator) (fetched : Option StateMap),
        program env collab fetched =
          Except.ok (mainRun collab fetched)) := by
  refine ⟨?_, ?_, ?_⟩
  · intro h collab fetched
    simp [program, loadConfig, h, optStrFalsy]
  · intro h collab fetched
    simp [program, loadConfig, h, optStrFalsy]
  · intro k h hk collab fetched
    simp [program, loadConfig, h, optStrFalsy, hk]

/-- Witness for C5: with the key absent the program is exactly the
startup error; with a non-empty key it is exactly a normal main run. -/
theorem c5_startup_check_witness :
    program envAbsent nullCollaborator none =
      Except.error "GOOGLE_API_KEY is missing in .env" ∧
    program envGood nullCollaborator none =
      Except.ok (mainRun nullCollaborator none) :=
  ⟨(c5_startup_check envAbsent).1 rfl nullCollaborator none,
   (c5_startup_check envGood).2.2 "test-key" rfl (by decide)
     nullCollaborator none⟩
